import Mathlib

/-!
Verification of the request-analysis orchestration path of the
Preventive Legal AID backend: the result normalizer, the prompt builders,
the fallback orchestrator and the retrieval client are embedded as
executable Lean definitions, and the specified properties are settled
against them.

Python dicts holding JSON-decoded model responses are embedded as
association lists of `String × JSON`; Python floats are abstracted as
rationals; blocking external calls (embedding request, vector search,
model inference) are parameterized by their outcome (`Except String _`),
so an uncaught Python exception corresponds to an `.error` value.
-/

namespace PreventiveLegalAid

/-- A JSON-like value as produced by `json.loads` in Python.
`float` abstracts Python floats as rationals. -/
inductive JSON where
  | null
  | bool (b : Bool)
  | int (n : Int)
  | float (q : ℚ)
  | str (s : String)
  | arr (xs : List JSON)
  | obj (fields : List (String × JSON))

/-- A Python dict with string keys, as an insertion-ordered association list. -/
abbrev RawMap := List (String × JSON)

/-- Lookup of a key in a dict (`d[k]` / `d.get(k)` without default). -/
def jGet : RawMap → String → Option JSON
  | [], _ => none
  | (k, v) :: rest, key => if k = key then some v else jGet rest key

/-- Python `d.get(key, default)`. -/
def pyGetD (m : RawMap) (key : String) (dflt : JSON) : JSON :=
  (jGet m key).getD dflt

/-- Python `d.get(key)`: missing keys give `None`. -/
def pyGet (m : RawMap) (key : String) : JSON :=
  pyGetD m key JSON.null

/-- Python truthiness (`bool(value)`) on JSON-decoded values. -/
def pyTruthy : JSON → Bool
  | .null => false
  | .bool b => b
  | .int n => n != 0
  | .float q => q != 0
  | .str s => s != ""
  | .arr xs => !xs.isEmpty
  | .obj fs => !fs.isEmpty

/-- Python `int(s)` on a string: optional surrounding whitespace, an
optional sign, then decimal digits; anything else raises `ValueError`
(modelled as `none`). Operates on the character list so that it reduces
definitionally on literals. -/
def pyParseInt (s : String) : Option Int :=
  let chars :=
    ((s.toList.dropWhile Char.isWhitespace).reverse.dropWhile Char.isWhitespace).reverse
  let (sign, digits) :=
    match chars with
    | '-' :: rest => ((-1 : Int), rest)
    | '+' :: rest => ((1 : Int), rest)
    | rest => ((1 : Int), rest)
  if !digits.isEmpty && digits.all Char.isDigit then
    some (sign * (digits.foldl (fun acc c => acc * 10 + (c.toNat - '0'.toNat)) 0 : Nat))
  else none

/-- Python `s.lower()` (ASCII case folding, which covers the literals the
source compares against). Operates on the character list so that it
reduces definitionally on literals. -/
def pyLower (s : String) : String :=
  String.mk (s.toList.map Char.toLower)

namespace ModelService

/-- The inner `ensure_list` helper of `normalize_ollama_response`:
lists pass through, truthy strings are wrapped in a singleton list,
everything else (including a missing value, i.e. `None`) becomes the default. -/
def ensure_list (value : JSON) (dflt : JSON) : JSON :=
  match value with
  | .arr xs => .arr xs
  | .str s => if s != "" then .arr [.str s] else dflt
  | _ => dflt

/-- The `risk_score` coercion of `normalize_ollama_response`: a string is
parsed with `int(...)`, defaulting to 50 on `ValueError`; any non-string
value passes through unchanged. -/
def normScore (v : JSON) : JSON :=
  match v with
  | .str s =>
    match pyParseInt s with
    | some n => .int n
    | none => .int 50
  | v => v

/-- The `lawyer_consultation_recommended` coercion of
`normalize_ollama_response`: a string is compared lowercased against
true/yes/1; anything else goes through `bool(...)`. -/
def normLawyer (v : JSON) : Bool :=
  match v with
  | .str s => pyLower s == "true" || pyLower s == "yes" || pyLower s == "1"
  | v => pyTruthy v

/-- The default `preventive_roadmap` used by `normalize_ollama_response`. -/
def roadmap_default : JSON :=
  .arr [.obj [("step_number", .int 1), ("action", .str "Review analysis"),
              ("importance", .str "Important")]]

/-- `normalize_ollama_response` from `model_service.py`: fills in every
required field, coercing `risk_score` strings to integers, wrapping scalar
strings into lists for the list fields, and coercing
`lawyer_consultation_recommended` to a boolean. The `query_text` argument
is accepted but unused, as in the source. -/
def normalize_ollama_response (response : RawMap) (query_text : String) : RawMap :=
  let risk_score := normScore (pyGetD response "risk_score" (JSON.int 50))
  let lawyer_consultation :=
    normLawyer (pyGetD response "lawyer_consultation_recommended" (JSON.bool true))
  [("risk_level", pyGetD response "risk_level" (JSON.str "medium")),
   ("risk_score", risk_score),
   ("risk_explanation", pyGetD response "risk_explanation" (JSON.str "Risk assessment provided")),
   ("analysis", pyGetD response "analysis" (JSON.str "Analysis not available")),
   ("pros", ensure_list (pyGet response "pros") (JSON.arr [])),
   ("cons", ensure_list (pyGet response "cons") (JSON.arr [])),
   ("preventive_roadmap", ensure_list (pyGet response "preventive_roadmap") roadmap_default),
   ("legal_references", ensure_list (pyGet response "legal_references") (JSON.arr [])),
   ("warnings", ensure_list (pyGet response "warnings") (JSON.arr [])),
   ("lawyer_consultation_recommended", JSON.bool lawyer_consultation),
   ("next_steps", ensure_list (pyGet response "next_steps") (JSON.arr []))]

/-- `create_structured_response_from_text` from `model_service.py`: the
structured stub built when the Ollama payload is not valid JSON. -/
def create_structured_response_from_text (text : String) (query_text : String) : RawMap :=
  [("risk_level", .str "medium"),
   ("risk_score", .int 50),
   ("risk_explanation", .str "Analysis based on provided context"),
   ("analysis", .str (text.take 1000)),
   ("pros", .arr []),
   ("cons", .arr []),
   ("preventive_roadmap",
    .arr [.obj [("step_number", .int 1),
                ("action", .str "Review the analysis provided"),
                ("importance", .str "Understanding your legal situation is the first step")]]),
   ("legal_references", .arr []),
   ("warnings", .arr [.str "This is an automated analysis. Consult a lawyer for complex matters."]),
   ("lawyer_consultation_recommended", .bool true),
   ("next_steps", .arr [.str "Review the analysis", .str "Consider professional consultation"])]

/-- The content-handling step of `analyze_with_ollama`: a successfully
JSON-parsed payload (`some parsed`) is normalized; a payload that fails
JSON parsing (`none`) is turned into the structured text stub. -/
def ollama_content_result (parsed : Option RawMap) (content : String) (query_text : String) : RawMap :=
  match parsed with
  | some r => normalize_ollama_response r query_text
  | none => create_structured_response_from_text content query_text

end ModelService

/-- The fields of `app.core.config.Settings` used by the orchestration
path. `OPENAI_API_KEY` defaults to the empty string in the source, so an
absent credential is the empty string (falsy in Python). -/
structure Settings where
  OPENAI_API_KEY : String
  USE_OFFLINE_MODE : Bool

/-- A retrieved chunk as formatted by `search_vector_db`: text, a
similarity score (a Python float, abstracted as a rational) and metadata. -/
structure RetrievedChunk where
  text : String
  score : ℚ
  metadata : List (String × String)
deriving DecidableEq

namespace AiService

/-- `build_user_prompt` from `ai_service.py`: the RAG context argument is
accepted but deliberately skipped by the source ("RAG context skipped for
speed"); the prompt is built from the query text alone. -/
def build_user_prompt (query_text : String) (rag_context : Option (List RetrievedChunk))
    (language : String) : String :=
  "Legal Query: " ++ query_text ++
    "\n\nProvide concise legal analysis with risk assessment, preventive roadmap, and key legal references for Indian law."

/-- The fallback dict built by `analyze_legal_query` / `analyze_with_openai`
when `json.loads` on the model payload raises `JSONDecodeError`. -/
def json_parse_fallback (content : String) : RawMap :=
  [("analysis", .str content),
   ("risk_level", .str "medium"),
   ("risk_score", .int 50),
   ("risk_explanation", .str "Analysis provided but JSON parsing failed"),
   ("pros", .arr []),
   ("cons", .arr []),
   ("preventive_roadmap", .arr []),
   ("legal_references", .arr []),
   ("warnings", .arr []),
   ("next_steps", .arr []),
   ("lawyer_consultation_recommended", .bool false)]

/-- Python `dict.update`: existing keys are overwritten in place, new keys
are appended in the order of the update dict. -/
def pyDictUpdate (m updates : RawMap) : RawMap :=
  (m.map fun kv =>
    match jGet updates kv.1 with
    | some w => (kv.1, w)
    | none => kv) ++
  updates.filter fun kv => (jGet m kv.1).isNone

/-- The response-handling tail of `analyze_with_openai` (identical in
`analyze_legal_query`): the payload is JSON-parsed (`parsed` is the
outcome; `none` means `JSONDecodeError`), the parse failure is replaced
by the fallback dict, and the metadata fields are merged in with
`result.update`. -/
def analyze_openai_result (parsed : Option RawMap) (content : String)
    (model : String) (processing_time_ms : Int) (tokens_used : Option Int) : RawMap :=
  let result :=
    match parsed with
    | some r => r
    | none => json_parse_fallback content
  pyDictUpdate result
    [("model_version", .str model),
     ("processing_time_ms", .int processing_time_ms),
     ("tokens_used", match tokens_used with | some t => .int t | none => .null)]

end AiService

namespace ModelService

/-- `build_user_prompt` from `model_service.py` (the minimal offline
variant): the RAG context argument is accepted but skipped. -/
def build_user_prompt (query_text : String) (rag_context : Option (List RetrievedChunk))
    (language : String) : String :=
  "Q: " ++ query_text ++ "\n\nReturn JSON only."

/-- `check_openai_connection` from `model_service.py`: no network probe is
made; the check is import success plus a non-empty API key. -/
def check_openai_connection (openai_available : Bool) (s : Settings) : Bool :=
  openai_available && s.OPENAI_API_KEY != ""

/-- Which model client a run of the orchestrator invoked. -/
inductive ModelCall where
  | openai
  | ollama
deriving DecidableEq

/-- Outcome of one orchestrator run: the model clients it invoked, in
order, and the returned dict or the raised exception message. -/
structure FallbackOutcome where
  calls : List ModelCall
  result : Except String RawMap

/-- `analyze_legal_query_with_fallback` from `model_service.py`. The
source is "OpenAI ONLY": a missing (falsy) `OPENAI_API_KEY` raises at
once; otherwise the 1-second probe (`probe_timeout` models
`asyncio.TimeoutError` from `wait_for`) decides between a direct OpenAI
attempt and a probe-gated one; `analyze_with_ollama` is never invoked.
`openai_call` is the outcome of `analyze_with_openai` (`.error` models a
raised exception), rewrapped by the enclosing `except` clauses. -/
def analyze_legal_query_with_fallback (s : Settings) (openai_available : Bool)
    (probe_timeout : Bool) (openai_call : Except String RawMap) : FallbackOutcome :=
  if s.OPENAI_API_KEY = "" then
    ⟨[], .error "OpenAI API key is required. Please set OPENAI_API_KEY in .env file"⟩
  else if probe_timeout then
    match openai_call with
    | .ok r => ⟨[.openai], .ok r⟩
    | .error e =>
      ⟨[.openai], .error ("OpenAI API error: " ++ e ++ ". Check your API key and internet connection.")⟩
  else if check_openai_connection openai_available s then
    match openai_call with
    | .ok r => ⟨[.openai], .ok r⟩
    | .error e =>
      ⟨[.openai], .error ("OpenAI API error: " ++ e ++ ". Check your API key and internet connection.")⟩
  else
    ⟨[], .error ("OpenAI API error: OpenAI API is not accessible. Check your API key and internet connection."
        ++ ". Check your API key and internet connection.")⟩

end ModelService

namespace RagService

/-- `rank_results` from `rag_service.py`:
`sorted(results, key=lambda x: x.get("score", 0), reverse=True)` — a
stable sort into descending score order (Python's `sorted` is stable,
embedded as `List.mergeSort`). The `query` argument is unused, as in the
source. -/
def rank_results (query : String) (results : List RetrievedChunk) : List RetrievedChunk :=
  results.mergeSort fun a b => decide (b.score ≤ a.score)

/-- `retrieve_relevant_context` from `rag_service.py`. The whole body sits
in a `try` block whose `except` returns `[]`, so the embedding outcome
(`embed`) and the vector-search outcome (`search`) are inputs; `.error`
models a raised exception. The skip branch returns `[]` when offline mode
is on or the API key is missing. -/
def retrieve_relevant_context (s : Settings) (query : String) (domain : String)
    (top_k : Nat) (skip_if_offline : Bool)
    (embed : Except String (List ℚ))
    (search : Except String (List RetrievedChunk)) : Except String (List RetrievedChunk) :=
  let body : Except String (List RetrievedChunk) :=
    if skip_if_offline && (s.USE_OFFLINE_MODE || s.OPENAI_API_KEY == "") then
      .ok []
    else
      match embed with
      | .error e => .error e
      | .ok _ =>
        match search with
        | .error e => .error e
        | .ok results => .ok ((rank_results query results).take 5)
  match body with
  | .ok r => .ok r
  | .error _ => .ok []

end RagService

/-! ## Helper lemmas -/

/-- `ensure_list` with a list default always yields a list. -/
theorem ensure_list_isArr (v : JSON) (ds : List JSON) :
    ∃ xs, ModelService.ensure_list v (JSON.arr ds) = JSON.arr xs := by
  cases v with
  | str s =>
    by_cases h : s = ""
    · exact ⟨ds, by simp [ModelService.ensure_list, h]⟩
    · exact ⟨[JSON.str s], by simp [ModelService.ensure_list, h]⟩
  | arr xs => exact ⟨xs, rfl⟩
  | null => exact ⟨ds, rfl⟩
  | bool b => exact ⟨ds, rfl⟩
  | int n => exact ⟨ds, rfl⟩
  | float q => exact ⟨ds, rfl⟩
  | obj fs => exact ⟨ds, rfl⟩

/-- `ensure_list` with a list default is idempotent. -/
theorem ensure_list_ensure_list (v : JSON) (ds : List JSON) :
    ModelService.ensure_list (ModelService.ensure_list v (JSON.arr ds)) (JSON.arr ds)
      = ModelService.ensure_list v (JSON.arr ds) := by
  obtain ⟨xs, h⟩ := ensure_list_isArr v ds
  rw [h]
  rfl

/-- The `risk_score` coercion on a string yields the parsed integer, or 50. -/
theorem normScore_str (s : String) :
    ModelService.normScore (JSON.str s) = JSON.int ((pyParseInt s).getD 50) := by
  show (match pyParseInt s with | some n => JSON.int n | none => JSON.int 50) = _
  cases pyParseInt s <;> rfl

/-- The `risk_score` coercion is idempotent: its output is never a string. -/
theorem normScore_normScore (v : JSON) :
    ModelService.normScore (ModelService.normScore v) = ModelService.normScore v := by
  cases v with
  | str s => rw [normScore_str s]; rfl
  | null => rfl
  | bool b => rfl
  | int n => rfl
  | float q => rfl
  | arr xs => rfl
  | obj fs => rfl

/-- The boolean coercion is the identity on booleans. -/
theorem normLawyer_bool (b : Bool) : ModelService.normLawyer (JSON.bool b) = b := rfl

/-! ## Claim theorems -/

/-- C10: the Result Normalizer's output does not depend on its
`query_text` argument: for every raw response map `r` and any two strings
`q1`, `q2`, `normalize_ollama_response r q1 = normalize_ollama_response r q2`. -/
theorem normalize_query_text_independent (r : RawMap) (q1 q2 : String) :
    ModelService.normalize_ollama_response r q1 = ModelService.normalize_ollama_response r q2 := rfl

/-- C7: for every Primary-model payload that fails JSON parsing, the
Primary Model Client does not raise: it returns a synthesized result
whose `analysis` field is the raw text, with `risk_level = "medium"`,
`risk_score = 50`, empty arrays for all list fields, and a
`risk_explanation` noting that JSON parsing failed. -/
theorem openai_parse_failure_synthesizes (content model : String)
    (ms : Int) (tokens : Option Int) :
    jGet (AiService.analyze_openai_result none content model ms tokens) "analysis"
      = some (JSON.str content) ∧
    jGet (AiService.analyze_openai_result none content model ms tokens) "risk_level"
      = some (JSON.str "medium") ∧
    jGet (AiService.analyze_openai_result none content model ms tokens) "risk_score"
      = some (JSON.int 50) ∧
    jGet (AiService.analyze_openai_result none content model ms tokens) "risk_explanation"
      = some (JSON.str "Analysis provided but JSON parsing failed") ∧
    jGet (AiService.analyze_openai_result none content model ms tokens) "pros"
      = some (JSON.arr []) ∧
    jGet (AiService.analyze_openai_result none content model ms tokens) "cons"
      = some (JSON.arr []) ∧
    jGet (AiService.analyze_openai_result none content model ms tokens) "preventive_roadmap"
      = some (JSON.arr []) ∧
    jGet (AiService.analyze_openai_result none content model ms tokens) "legal_references"
      = some (JSON.arr []) ∧
    jGet (AiService.analyze_openai_result none content model ms tokens) "warnings"
      = some (JSON.arr []) ∧
    jGet (AiService.analyze_openai_result none content model ms tokens) "next_steps"
      = some (JSON.arr []) ∧
    jGet (AiService.analyze_openai_result none content model ms tokens) "lawyer_consultation_recommended"
      = some (JSON.bool false) :=
  ⟨rfl, rfl, rfl, rfl, rfl, rfl, rfl, rfl, rfl, rfl, rfl⟩

/-- C8: for every non-JSON text payload returned by the Secondary model,
the Secondary Model Client returns a structured stub whose `analysis`
field is the raw text truncated to 1000 characters, with the fixed
placeholder roadmap and warning entries recommending professional
consultation, and `lawyer_consultation_recommended = true`. -/
theorem ollama_nonjson_structured_stub (content q : String) :
    jGet (ModelService.ollama_content_result none content q) "analysis"
      = some (JSON.str (content.take 1000)) ∧
    jGet (ModelService.ollama_content_result none content q) "preventive_roadmap"
      = some (JSON.arr [JSON.obj
          [("step_number", JSON.int 1),
           ("action", JSON.str "Review the analysis provided"),
           ("importance", JSON.str "Understanding your legal situation is the first step")]]) ∧
    jGet (ModelService.ollama_content_result none content q) "warnings"
      = some (JSON.arr
          [JSON.str "This is an automated analysis. Consult a lawyer for complex matters."]) ∧
    jGet (ModelService.ollama_content_result none content q) "lawyer_consultation_recommended"
      = some (JSON.bool true) ∧
    jGet (ModelService.ollama_content_result none content q) "risk_level"
      = some (JSON.str "medium") ∧
    jGet (ModelService.ollama_content_result none content q) "risk_score"
      = some (JSON.int 50) :=
  ⟨rfl, rfl, rfl, rfl, rfl, rfl⟩

set_option maxRecDepth 16000 in
/-- C9 counterexample: the verbose-variant `build_user_prompt` in
`ai_service.py` does not include supplied retrieved chunks — with a chunk
whose text is `"LANDMARK_CHUNK_TEXT"` and source metadata supplied, the
produced user prompt equals the no-context prompt and does not contain
the chunk text. -/
theorem build_user_prompt_includes_chunks_counterexample :
    AiService.build_user_prompt "test query"
        (some [⟨"LANDMARK_CHUNK_TEXT", 1, [("source", "doc.pdf")]⟩]) "en"
      = AiService.build_user_prompt "test query" none "en" ∧
    ¬ ("LANDMARK_CHUNK_TEXT".toList <:+:
        (AiService.build_user_prompt "test query"
          (some [⟨"LANDMARK_CHUNK_TEXT", 1, [("source", "doc.pdf")]⟩]) "en").toList) :=
  ⟨rfl, by decide⟩

/-- C9 amended: both prompt-builder variants ignore the supplied retrieved
chunks and the language argument: the user prompt depends only on the
query text, and (in particular with 0 chunks) is a valid prompt that
references only the query text. -/
theorem build_user_prompt_query_only_amended (q lang1 lang2 : String)
    (ctx1 ctx2 : Option (List RetrievedChunk)) :
    AiService.build_user_prompt q ctx1 lang1 = AiService.build_user_prompt q ctx2 lang2 ∧
    (∃ suffix, AiService.build_user_prompt q ctx1 lang1 = "Legal Query: " ++ q ++ suffix) ∧
    ModelService.build_user_prompt q ctx1 lang1 = ModelService.build_user_prompt q ctx2 lang2 ∧
    (∃ suffix, ModelService.build_user_prompt q ctx1 lang1 = "Q: " ++ q ++ suffix) :=
  ⟨rfl, ⟨_, rfl⟩, rfl, ⟨_, rfl⟩⟩

/-- C2 counterexample: with the Primary credential absent
(`OPENAI_API_KEY = ""`) and the offline-mode flag unset, the fallback
orchestrator does not attempt the Secondary (Ollama) model: it invokes no
model client at all and raises the missing-key error immediately. -/
theorem fallback_no_secondary_counterexample :
    (ModelService.analyze_legal_query_with_fallback ⟨"", false⟩ true false
        (.error "connection refused")).calls = [] ∧
    ModelService.ModelCall.ollama ∉
      (ModelService.analyze_legal_query_with_fallback ⟨"", false⟩ true false
        (.error "connection refused")).calls ∧
    (ModelService.analyze_legal_query_with_fallback ⟨"", false⟩ true false
        (.error "connection refused")).result
      = .error "OpenAI API key is required. Please set OPENAI_API_KEY in .env file" :=
  ⟨rfl, by decide, rfl⟩

/-- C2 amended: when the Primary credential is absent the orchestrator
terminates immediately with the missing-key error, invoking no model
client; moreover the Secondary (Ollama) model is never attempted by the
orchestrator on any input, and every run terminates with a result or an
error (the function is total, so no hang). -/
theorem fallback_primary_only_amended (s : Settings) (oa pt : Bool)
    (oc : Except String RawMap) (hkey : s.OPENAI_API_KEY = "") :
    (ModelService.analyze_legal_query_with_fallback s oa pt oc).calls = [] ∧
    (ModelService.analyze_legal_query_with_fallback s oa pt oc).result
      = .error "OpenAI API key is required. Please set OPENAI_API_KEY in .env file" ∧
    ∀ (s' : Settings) (oa' pt' : Bool) (oc' : Except String RawMap),
      ModelService.ModelCall.ollama ∉
        (ModelService.analyze_legal_query_with_fallback s' oa' pt' oc').calls := by
  refine ⟨?_, ?_, ?_⟩
  · simp [ModelService.analyze_legal_query_with_fallback, hkey]
  · simp [ModelService.analyze_legal_query_with_fallback, hkey]
  · intro s' oa' pt' oc'
    unfold ModelService.analyze_legal_query_with_fallback
    split
    · simp
    · split
      · cases oc' <;> simp
      · split
        · cases oc' <;> simp
        · simp

/-- C2 amended, witness: instantiated at an absent key with the offline
flag set and an unreachable Secondary. -/
theorem fallback_primary_only_amended_witness :
    (ModelService.analyze_legal_query_with_fallback ⟨"", true⟩ false false
        (.error "ollama down")).calls = [] :=
  (fallback_primary_only_amended ⟨"", true⟩ false false (.error "ollama down") rfl).1

/-- C5 counterexample: `normalize_ollama_response` does not clamp
`risk_score` to `[0, 100]` — an out-of-range integer raw value (150)
passes through unchanged. -/
theorem risk_score_not_clamped_counterexample :
    jGet (ModelService.normalize_ollama_response [("risk_score", JSON.int 150)] "q") "risk_score"
      = some (JSON.int 150) ∧ ¬ ((150 : Int) ≤ 100) :=
  ⟨rfl, by decide⟩

/-- C5 amended: after normalization `risk_score` is an integer whenever
the raw value is absent, an integer or a string — the string `"50"`
normalizes to the integer 50, unparseable strings and a missing field
default to 50 — but no clamping to `[0, 100]` occurs: integer raw values
pass through unchanged. -/
theorem risk_score_coercion_amended (q s : String) (n : Int) :
    jGet (ModelService.normalize_ollama_response [("risk_score", JSON.str "50")] q) "risk_score"
      = some (JSON.int 50) ∧
    jGet (ModelService.normalize_ollama_response [] q) "risk_score"
      = some (JSON.int 50) ∧
    jGet (ModelService.normalize_ollama_response [("risk_score", JSON.int n)] q) "risk_score"
      = some (JSON.int n) ∧
    (pyParseInt s = none →
      jGet (ModelService.normalize_ollama_response [("risk_score", JSON.str s)] q) "risk_score"
        = some (JSON.int 50)) ∧
    (∀ m, pyParseInt s = some m →
      jGet (ModelService.normalize_ollama_response [("risk_score", JSON.str s)] q) "risk_score"
        = some (JSON.int m)) := by
  refine ⟨rfl, rfl, rfl, ?_, ?_⟩
  · intro h
    show some (ModelService.normScore (JSON.str s)) = some (JSON.int 50)
    rw [normScore_str, h]
    rfl
  · intro m h
    show some (ModelService.normScore (JSON.str s)) = some (JSON.int m)
    rw [normScore_str, h]
    rfl

/-- C5 amended, witness: instantiated at the unparseable raw string
`"abc"`, which defaults to the integer 50. -/
theorem risk_score_coercion_amended_witness :
    jGet (ModelService.normalize_ollama_response [("risk_score", JSON.str "abc")] "w") "risk_score"
      = some (JSON.int 50) :=
  (risk_score_coercion_amended "w" "abc" 0).2.2.2.1 rfl

/-- C1 counterexample: `normalize_ollama_response` does not force
`risk_level` into `{low, medium, high}` — a raw value of `"banana"`
passes through unchanged. -/
theorem normalize_schema_counterexample :
    jGet (ModelService.normalize_ollama_response [("risk_level", JSON.str "banana")] "q") "risk_level"
      = some (JSON.str "banana") ∧
    ¬ ("banana" = "low" ∨ "banana" = "medium" ∨ "banana" = "high") :=
  ⟨rfl, by decide⟩

/-- C1 amended: the normalizer output always contains exactly the eleven
`AnalysisResult` fields, in schema order; the six list fields are always
lists and `lawyer_consultation_recommended` is always a boolean; and
`risk_score` is an integer whenever the raw value is absent, an integer,
or a string. The three string fields (`risk_level`, `risk_explanation`,
`analysis`) are defaulted when absent but pass through non-string raw
values uncoerced, so their types (and the `{low, medium, high}`
enumeration) are not guaranteed. -/
theorem normalize_schema_amended (r : RawMap) (q : String) :
    (ModelService.normalize_ollama_response r q).map Prod.fst =
      ["risk_level", "risk_score", "risk_explanation", "analysis", "pros", "cons",
       "preventive_roadmap", "legal_references", "warnings",
       "lawyer_consultation_recommended", "next_steps"] ∧
    (∃ xs, jGet (ModelService.normalize_ollama_response r q) "pros" = some (JSON.arr xs)) ∧
    (∃ xs, jGet (ModelService.normalize_ollama_response r q) "cons" = some (JSON.arr xs)) ∧
    (∃ xs, jGet (ModelService.normalize_ollama_response r q) "preventive_roadmap"
      = some (JSON.arr xs)) ∧
    (∃ xs, jGet (ModelService.normalize_ollama_response r q) "legal_references"
      = some (JSON.arr xs)) ∧
    (∃ xs, jGet (ModelService.normalize_ollama_response r q) "warnings" = some (JSON.arr xs)) ∧
    (∃ xs, jGet (ModelService.normalize_ollama_response r q) "next_steps" = some (JSON.arr xs)) ∧
    (∃ b, jGet (ModelService.normalize_ollama_response r q) "lawyer_consultation_recommended"
      = some (JSON.bool b)) ∧
    ((jGet r "risk_score" = none ∨ (∃ n, jGet r "risk_score" = some (JSON.int n)) ∨
        (∃ str, jGet r "risk_score" = some (JSON.str str))) →
      ∃ n, jGet (ModelService.normalize_ollama_response r q) "risk_score"
        = some (JSON.int n)) := by
  refine ⟨rfl, ?_, ?_, ?_, ?_, ?_, ?_, ⟨_, rfl⟩, ?_⟩
  · obtain ⟨xs, h⟩ := ensure_list_isArr (pyGet r "pros") []
    exact ⟨xs, by rw [show jGet (ModelService.normalize_ollama_response r q) "pros"
      = some (ModelService.ensure_list (pyGet r "pros") (JSON.arr [])) from rfl, h]⟩
  · obtain ⟨xs, h⟩ := ensure_list_isArr (pyGet r "cons") []
    exact ⟨xs, by rw [show jGet (ModelService.normalize_ollama_response r q) "cons"
      = some (ModelService.ensure_list (pyGet r "cons") (JSON.arr [])) from rfl, h]⟩
  · obtain ⟨xs, h⟩ := ensure_list_isArr (pyGet r "preventive_roadmap")
      [JSON.obj [("step_number", JSON.int 1), ("action", JSON.str "Review analysis"),
                 ("importance", JSON.str "Important")]]
    exact ⟨xs, by rw [show jGet (ModelService.normalize_ollama_response r q) "preventive_roadmap"
      = some (ModelService.ensure_list (pyGet r "preventive_roadmap")
          ModelService.roadmap_default) from rfl]; exact congrArg some h⟩
  · obtain ⟨xs, h⟩ := ensure_list_isArr (pyGet r "legal_references") []
    exact ⟨xs, by rw [show jGet (ModelService.normalize_ollama_response r q) "legal_references"
      = some (ModelService.ensure_list (pyGet r "legal_references") (JSON.arr [])) from rfl, h]⟩
  · obtain ⟨xs, h⟩ := ensure_list_isArr (pyGet r "warnings") []
    exact ⟨xs, by rw [show jGet (ModelService.normalize_ollama_response r q) "warnings"
      = some (ModelService.ensure_list (pyGet r "warnings") (JSON.arr [])) from rfl, h]⟩
  · obtain ⟨xs, h⟩ := ensure_list_isArr (pyGet r "next_steps") []
    exact ⟨xs, by rw [show jGet (ModelService.normalize_ollama_response r q) "next_steps"
      = some (ModelService.ensure_list (pyGet r "next_steps") (JSON.arr [])) from rfl, h]⟩
  · rintro (h | ⟨n, h⟩ | ⟨str, h⟩)
    · refine ⟨50, ?_⟩
      show some (ModelService.normScore (pyGetD r "risk_score" (JSON.int 50))) = _
      rw [pyGetD, h]
      rfl
    · refine ⟨n, ?_⟩
      show some (ModelService.normScore (pyGetD r "risk_score" (JSON.int 50))) = _
      rw [pyGetD, h]
      rfl
    · refine ⟨(pyParseInt str).getD 50, ?_⟩
      show some (ModelService.normScore (pyGetD r "risk_score" (JSON.int 50))) = _
      rw [pyGetD, h]
      show some (ModelService.normScore (JSON.str str)) = _
      rw [normScore_str]

/-- C1 amended, witness: instantiated at a raw map whose `risk_score` is
the string `"7"`. -/
theorem normalize_schema_amended_witness :
    ∃ n, jGet (ModelService.normalize_ollama_response [("risk_score", JSON.str "7")] "w")
      "risk_score" = some (JSON.int n) :=
  (normalize_schema_amended [("risk_score", JSON.str "7")] "w").2.2.2.2.2.2.2.2
    (Or.inr (Or.inr ⟨"7", rfl⟩))

/-- C4: the Retrieval Client fails soft — whenever the embedding call or
the vector search raises, or retrieval is disabled by configuration
(offline mode), `retrieve_relevant_context` returns `.ok []`; and on
every input it returns `.ok` of some list, never propagating an error. -/
theorem retrieve_fails_soft (s : Settings) (q d : String) (k : Nat) (skip : Bool)
    (e1 e2 : String) (emb : List ℚ)
    (embx : Except String (List ℚ)) (srch : Except String (List RetrievedChunk)) :
    RagService.retrieve_relevant_context s q d k skip (.error e1) srch = .ok [] ∧
    RagService.retrieve_relevant_context s q d k skip (.ok emb) (.error e2) = .ok [] ∧
    RagService.retrieve_relevant_context ⟨s.OPENAI_API_KEY, true⟩ q d k true embx srch
      = .ok [] ∧
    ∃ l, RagService.retrieve_relevant_context s q d k skip embx srch = .ok l := by
  refine ⟨?_, ?_, ?_, ?_⟩
  · unfold RagService.retrieve_relevant_context
    split <;> rfl
  · unfold RagService.retrieve_relevant_context
    split <;> rfl
  · rfl
  · rcases embx with e | v
    · exact ⟨[], by unfold RagService.retrieve_relevant_context; split <;> rfl⟩
    · rcases srch with e2' | rs
      · exact ⟨[], by unfold RagService.retrieve_relevant_context; split <;> rfl⟩
      · unfold RagService.retrieve_relevant_context
        split
        · exact ⟨[], rfl⟩
        · exact ⟨(RagService.rank_results q rs).take 5, rfl⟩

/-- C3: the Result Normalizer is idempotent — for every partially
populated raw map, `normalize(normalize(x)) = normalize(x)`. -/
theorem normalize_idempotent (r : RawMap) (q : String) :
    ModelService.normalize_ollama_response (ModelService.normalize_ollama_response r q) q
      = ModelService.normalize_ollama_response r q := by
  simp only [ModelService.normalize_ollama_response, pyGetD, pyGet, jGet,
    String.reduceEq, reduceIte, Option.getD_some, normScore_normScore,
    ensure_list_ensure_list, normLawyer_bool, ModelService.roadmap_default]

/-- The comparison used by `rank_results` is transitive. -/
theorem rank_le_trans (a b c : RetrievedChunk) :
    decide (b.score ≤ a.score) → decide (c.score ≤ b.score) → decide (c.score ≤ a.score) := by
  intro h1 h2
  exact decide_eq_true (le_trans (of_decide_eq_true h2) (of_decide_eq_true h1))

/-- The comparison used by `rank_results` is total. -/
theorem rank_le_total (a b : RetrievedChunk) :
    decide (b.score ≤ a.score) || decide (a.score ≤ b.score) := by
  rcases le_total b.score a.score with h | h
  · simp [h]
  · simp [h]

/-- C6: `rank_results` stably sorts candidate chunks into descending
similarity-score order — the output is a permutation of the input, its
scores are non-increasing, and chunks with equal scores keep their
original relative order — and `retrieve_relevant_context` then truncates
the ranked list to at most 5 chunks. -/
theorem rank_results_stable_sort_truncate (q d : String) (k : Nat)
    (rs : List RetrievedChunk) (s : Settings) (emb : List ℚ) (c : ℚ) :
    (RagService.rank_results q rs).Perm rs ∧
    (RagService.rank_results q rs).Pairwise (fun a b => b.score ≤ a.score) ∧
    (RagService.rank_results q rs).filter (fun x => decide (x.score = c))
      = rs.filter (fun x => decide (x.score = c)) ∧
    RagService.retrieve_relevant_context s q d k false (.ok emb) (.ok rs)
      = .ok ((RagService.rank_results q rs).take 5) ∧
    ((RagService.rank_results q rs).take 5).length ≤ 5 := by
  have htrans : ∀ a b c : RetrievedChunk,
      (fun a b : RetrievedChunk => decide (b.score ≤ a.score)) a b →
      (fun a b : RetrievedChunk => decide (b.score ≤ a.score)) b c →
      (fun a b : RetrievedChunk => decide (b.score ≤ a.score)) a c := rank_le_trans
  have htotal : ∀ a b : RetrievedChunk,
      (fun a b : RetrievedChunk => decide (b.score ≤ a.score)) a b ||
      (fun a b : RetrievedChunk => decide (b.score ≤ a.score)) b a := rank_le_total
  refine ⟨List.mergeSort_perm rs _, ?_, ?_, rfl, List.length_take_le 5 _⟩
  · exact (List.sorted_mergeSort htrans htotal rs).imp fun h => of_decide_eq_true h
  · have hpair : (rs.filter fun x => decide (x.score = c)).Pairwise
        (fun a b : RetrievedChunk => decide (b.score ≤ a.score) = true) := by
      apply List.pairwise_of_forall_mem_list
      intro a ha b hb
      have ha' : a.score = c := of_decide_eq_true (List.mem_filter.mp ha).2
      have hb' : b.score = c := of_decide_eq_true (List.mem_filter.mp hb).2
      exact decide_eq_true (le_of_eq (hb'.trans ha'.symm))
    have h1 : List.Sublist (rs.filter fun x => decide (x.score = c))
        (RagService.rank_results q rs) :=
      List.sublist_mergeSort htrans htotal hpair (List.filter_sublist rs)
    have h2 : List.Sublist
        ((rs.filter fun x => decide (x.score = c)).filter fun x => decide (x.score = c))
        ((RagService.rank_results q rs).filter fun x => decide (x.score = c)) :=
      h1.filter _
    have h3 : ((rs.filter fun x => decide (x.score = c)).filter fun x => decide (x.score = c))
        = rs.filter fun x => decide (x.score = c) :=
      List.filter_eq_self.mpr fun a ha => (List.mem_filter.mp ha).2
    have hperm : List.Perm
        ((RagService.rank_results q rs).filter fun x => decide (x.score = c))
        (rs.filter fun x => decide (x.score = c)) :=
      (List.mergeSort_perm rs _).filter _
    have h4 : List.Sublist (rs.filter fun x => decide (x.score = c))
        ((RagService.rank_results q rs).filter fun x => decide (x.score = c)) := h3 ▸ h2
    exact (h4.eq_of_length hperm.length_eq.symm).symm

end PreventiveLegalAid
